import Mathlib

/-!
A shallow embedding of `src/orcl_impexp.py` (an interactive Oracle schema
export tool) and proofs about it.

Modelling conventions:
  * Console output is a `List String` of printed messages, in order.
    Wall-clock timing messages ("Completed in ... seconds.") and the
    cosmetic spinner are omitted: they depend on real time only.
  * Database query results and subprocess outcomes are passed in as
    explicit parameters (the program's only interaction with them is
    through the values they return).
  * Python `None`/tuple returns become `Option` values.
  * Strings that contain a quote character in the Python source use the
    escape \x27 for that character.
-/

namespace OrclImpExp

/-! ### Python `int()` parsing (used by `select_schema` line 87)

Python's `int(s)` strips surrounding whitespace, allows one optional sign,
then ASCII digits with single underscores permitted between digits. -/

/-- Digits after the first one: ASCII digits, where a single underscore may
separate two digits (Python 3 literal-style grouping). -/
def pyDigitsAux : Nat → List Char → Option Nat
  | acc, [] => some acc
  | acc, c :: cs =>
    if c.isDigit then pyDigitsAux (10 * acc + (c.toNat - 48)) cs
    else if c = '_' then
      match cs with
      | [] => none
      | d :: ds => if d.isDigit then pyDigitsAux (10 * acc + (d.toNat - 48)) ds else none
    else none

/-- A digit string: at least one digit, underscores only between digits. -/
def pyDigits : List Char → Option Nat
  | [] => none
  | c :: cs => if c.isDigit then pyDigitsAux (c.toNat - 48) cs else none

/-- Strip whitespace from both ends, as `str.strip()` does. -/
def pyStrip (s : String) : List Char :=
  ((s.data.dropWhile Char.isWhitespace).reverse.dropWhile Char.isWhitespace).reverse

/-- Python `int(s)`: `none` models a raised `ValueError`. -/
def pyInt (s : String) : Option Int :=
  match pyStrip s with
  | '+' :: rest => (pyDigits rest).map (fun n => (n : Int))
  | '-' :: rest => (pyDigits rest).map (fun n => -(n : Int))
  | t => (pyDigits t).map (fun n => (n : Int))

/-! ### `os.path` helpers used by `run_export` (lines 150, 155) -/

/-- Index of the last occurrence of `c` in `l`, if any (Python `str.rfind`,
with `none` for Python's `-1`). -/
def rfindIdx (c : Char) (l : List Char) : Option Nat :=
  match l.reverse.findIdx? (fun x => x = c) with
  | none => none
  | some i => some (l.length - 1 - i)

/-- `posixpath.splitext`: split off the extension at the last dot, provided
that dot lies after the last path separator and the basename does not
consist solely of leading dots up to it. -/
def splitext (p : String) : String × String :=
  let cs := p.data
  let sepIndex : Int := match rfindIdx '/' cs with | some i => (i : Int) | none => -1
  let dotIndex : Int := match rfindIdx '.' cs with | some i => (i : Int) | none => -1
  if sepIndex < dotIndex then
    let basePart := (cs.take dotIndex.toNat).drop (sepIndex + 1).toNat
    if basePart.any (fun ch => ch ≠ '.') then
      (String.mk (cs.take dotIndex.toNat), String.mk (cs.drop dotIndex.toNat))
    else (p, "")
  else (p, "")

/-- `posixpath.join a b` for the two-argument form used at line 155. -/
def posixJoin (a b : String) : String :=
  if b.data.head? = some '/' then b
  else if a = "" ∨ a.data.getLast? = some '/' then a ++ b
  else a ++ "/" ++ b

/-- Python `sep.join l` (`str.join`). -/
def pyJoin (sep : String) : List String → String
  | [] => ""
  | [x] => x
  | x :: xs => x ++ sep ++ pyJoin sep xs

/-! ### `get_schemas` (lines 59-77)

The database interaction is abstracted by its outcome: either the query
succeeded with a list of rows, or the driver raised `oracledb.Error`. -/

inductive GetSchemasOutcome
  | ok (rows : List String)
  | dbError (msg : String)

/-- `get_schemas`: returns (console output, result); `none` models the
`return None` taken on `oracledb.Error` (line 73). -/
def get_schemas (outcome : GetSchemasOutcome) : List String × Option (List String) :=
  match outcome with
  | .ok rows => ([], some rows)
  | .dbError msg => (["Error connecting to database or fetching schemas: " ++ msg], none)

/-! ### `select_schema` (lines 79-93)

The interactive loop is modelled over the list of lines the operator will
type; the loop result is `none` when that list is exhausted without a valid
choice (in Python the loop would simply keep prompting forever). -/

/-- The `while True` loop of `select_schema` (lines 85-93): returns the
error messages printed and the selected schema, consuming inputs in order. -/
def select_loop (schemas : List String) : List String → List String × Option String
  | [] => ([], none)
  | input :: rest =>
    match pyInt input with
    | some choice =>
      if 1 ≤ choice ∧ choice ≤ (schemas.length : Int) then
        ([], schemas.get? (choice - 1).toNat)
      else
        let r := select_loop schemas rest
        ("Invalid number. Please try again." :: r.1, r.2)
    | none =>
      let r := select_loop schemas rest
      ("Invalid input. Please enter a number." :: r.1, r.2)

/-- The numbered menu printed at lines 81-83. -/
def selectMenu (schemas : List String) : List String :=
  "Please select a schema to export:" ::
    schemas.enum.map (fun pr => toString (pr.1 + 1) ++ ". " ++ pr.2)

/-- `select_schema`: prints the menu, then runs the input loop. -/
def select_schema (schemas : List String) (inputs : List String) : List String × Option String :=
  let r := select_loop schemas inputs
  (selectMenu schemas ++ r.1, r.2)

/-! ### `create_impdp_details_file` (lines 95-143) -/

/-- The two queries issued inside `create_impdp_details_file`, abstracted by
their results, or a driver error raised anywhere in the `try` block. -/
inductive MetaEnv
  | dbError (msg : String)
  | queried (user_details : Option (String × String)) (dir_path : Option String)

/-- `dump_filename` as built at line 121. -/
def dump_filename (schema timestamp : String) : String :=
  schema ++ "_" ++ timestamp ++ ".dmp"

/-- `config_filename` as built at line 122. -/
def config_filename (schema timestamp : String) : String :=
  "impdp_details_" ++ schema ++ "_" ++ timestamp ++ ".json"

structure MetaOutput where
  console : List String
  /-- The file written by `json.dump` (line 131-132): name and the flat
  string-to-string mapping it contains; `none` when no file is created. -/
  fileWritten : Option (String × List (String × String))
  /-- The returned pair `(config_filename, dump_filename)`; `none` models
  `return None, None`. -/
  result : Option (String × String)

/-- `create_impdp_details_file` for schema `schema`. The timestamp
(`datetime.now().strftime` at line 120) is a parameter: it is generated
exactly once per call and used for both filenames. -/
def create_impdp_details_file (schema : String) (env : MetaEnv) (timestamp : String) :
    MetaOutput :=
  let pre := ["Creating impdp details file for schema: " ++ schema ++ "..."]
  match env with
  | .dbError msg =>
    ⟨pre ++ ["Error creating impdp details file: " ++ msg], none, none⟩
  | .queried user_details dir_path =>
    match user_details with
    | none => ⟨pre ++ ["Error: Schema \x27" ++ schema ++ "\x27 not found."], none, none⟩
    | some (uname, tblspace) =>
      match dir_path with
      | none => ⟨pre ++ ["Error: DATA_PUMP_DIR not found."], none, none⟩
      | some dirPath =>
        let dumpf := dump_filename schema timestamp
        let conf := config_filename schema timestamp
        let impdp_details := [("schema_name", uname), ("default_tablespace", tblspace),
                              ("data_pump_dir", dirPath), ("dump_file", dumpf)]
        ⟨pre ++ ["Successfully created impdp details file: " ++ conf],
         some (conf, impdp_details), some (conf, dumpf)⟩

/-! ### `run_export` (lines 145-203) -/

/-- Outcome of the `subprocess.Popen` call: `FileNotFoundError`, another
exception, or a started process with its merged output lines (each as
returned by `readline`) and its final exit code. -/
inductive LaunchOutcome
  | notFound
  | otherError (msg : String)
  | ok (lines : List String) (exitCode : Int)

/-- `log_filename_expdp` (line 150): dump filename with extension replaced. -/
def log_filename_expdp (dumpFilename : String) : String :=
  (splitext dumpFilename).1 ++ ".log"

/-- `log_filename_local` (line 155): the mirror path inside `log/`. -/
def log_filename_local (dumpFilename : String) : String :=
  posixJoin "log" (log_filename_expdp dumpFilename)

/-- The `command` list built at lines 160-166. -/
def expdpCommand (user password dsn schema dumpFilename : String) : List String :=
  ["expdp",
   user ++ "/" ++ password ++ "@" ++ dsn,
   "schemas=" ++ schema,
   "dumpfile=" ++ dumpFilename,
   "logfile=" ++ log_filename_expdp dumpFilename]

/-- The line printed at line 170: `" ".join(command)`. -/
def generatedCommandLine (user password dsn schema dumpFilename : String) : String :=
  pyJoin " " (expdpCommand user password dsn schema dumpFilename)

/-- Everything `run_export` prints before `subprocess.Popen` runs
(lines 147, 169-170). -/
def preLaunchConsole (user password dsn schema dumpFilename : String) : List String :=
  ["Starting export for schema: " ++ schema ++ "...",
   "Generated command:",
   generatedCommandLine user password dsn schema dumpFilename]

/-- The streaming loop (lines 177-182): reads lines until `readline`
returns an empty string; each line is printed to the console (first
component) and written to the local log file (second component). -/
def streamLoop : List String → List String × List String
  | [] => ([], [])
  | line :: rest =>
    if line = "" then ([], [])
    else
      let r := streamLoop rest
      (line :: r.1, line :: r.2)

structure ExportOutput where
  console : List String
  /-- Content of the local log mirror, when the file was opened. -/
  logWritten : Option (List String)
  /-- The returned pair `(dump_filename, log_filename_local)`; `none`
  models `return None, None`. -/
  result : Option (String × String)

/-- `run_export`. -/
def run_export (user password dsn schema dumpFilename : String) (launch : LaunchOutcome) :
    ExportOutput :=
  let pre := preLaunchConsole user password dsn schema dumpFilename
  match launch with
  | .notFound =>
    ⟨pre ++ ["Error: \x27expdp\x27 command not found.",
             "Please ensure the Oracle Database utilities are in your system\x27s PATH."],
     none, none⟩
  | .otherError msg =>
    ⟨pre ++ ["An unexpected error occurred: " ++ msg], none, none⟩
  | .ok lines exitCode =>
    let streamed := streamLoop lines
    ⟨pre ++ ["--- expdp Log ---"] ++ streamed.1 ++ ["--- End of Log ---"] ++
       (if exitCode = 0 then ["Export completed successfully."]
        else ["Error: expdp process exited with return code " ++ toString exitCode]),
     some streamed.2,
     if exitCode = 0 then some (dumpFilename, log_filename_local dumpFilename) else none⟩

/-! ### `run_export_workflow` (lines 205-235) -/

inductive WorkflowResult
  | abortedNoSchemas
  | noValidSelection
  | abortedNoMetadata
  | failed
  | succeeded
deriving DecidableEq

structure WorkflowOutput where
  console : List String
  result : WorkflowResult

/-- `run_export_workflow`, with every external interaction abstracted by
its outcome. `noValidSelection` marks the point where the Python selector
would keep prompting past the supplied inputs. -/
def run_export_workflow (user password dsn : String) (schemasOutcome : GetSchemasOutcome)
    (selectorInputs : List String) (metaEnv : MetaEnv) (timestamp : String)
    (launch : LaunchOutcome) : WorkflowOutput :=
  let header := ["--- Oracle Database Export Tool ---"]
  let g := get_schemas schemasOutcome
  match g.2 with
  | none => ⟨header ++ g.1 ++ ["Could not fetch schemas. Exiting."], .abortedNoSchemas⟩
  | some schemas =>
    if schemas.isEmpty then
      ⟨header ++ g.1 ++ ["Could not fetch schemas. Exiting."], .abortedNoSchemas⟩
    else
      let sel := select_schema schemas selectorInputs
      match sel.2 with
      | none => ⟨header ++ g.1 ++ sel.1, .noValidSelection⟩
      | some selected =>
        let selMsg := ["You have selected schema: " ++ selected]
        let meta := create_impdp_details_file selected metaEnv timestamp
        match meta.result with
        | none =>
          ⟨header ++ g.1 ++ sel.1 ++ selMsg ++ meta.console ++
             ["Could not create impdp details file. Exiting."], .abortedNoMetadata⟩
        | some cd =>
          let exp := run_export user password dsn selected cd.2 launch
          match exp.result with
          | some dl =>
            ⟨header ++ g.1 ++ sel.1 ++ selMsg ++ meta.console ++ exp.console ++
               ["--- Export Summary ---",
                "Schema:    " ++ selected,
                "Dump file: " ++ dl.1,
                "Log file:  " ++ dl.2,
                "Config file: " ++ cd.1,
                "Tool execution finished successfully."], .succeeded⟩
          | none =>
            ⟨header ++ g.1 ++ sel.1 ++ selMsg ++ meta.console ++ exp.console ++
               ["Tool execution failed."], .failed⟩

end OrclImpExp

open OrclImpExp

/-! ## Helper lemmas -/

/-- Reassembling the two halves of `splitext` gives back the input. -/
theorem splitext_fst_append_snd (p : String) : (splitext p).1 ++ (splitext p).2 = p := by
  unfold splitext
  dsimp only
  split
  · split
    · show String.mk _ ++ String.mk _ = p
      have h := List.take_append_drop
        ((match rfindIdx '.' p.data with | some i => (i : Int) | none => -1).toNat) p.data
      calc String.mk (List.take _ p.data) ++ String.mk (List.drop _ p.data)
          = String.mk (List.take _ p.data ++ List.drop _ p.data) := rfl
        _ = String.mk p.data := congrArg String.mk h
        _ = p := rfl
    · show p ++ "" = p
      calc p ++ "" = String.mk (p.data ++ []) := rfl
        _ = String.mk p.data := congrArg String.mk (List.append_nil _)
        _ = p := rfl
  · show p ++ "" = p
    calc p ++ "" = String.mk (p.data ++ []) := rfl
      _ = String.mk p.data := congrArg String.mk (List.append_nil _)
      _ = p := rfl

/-! ## Claims -/

/-- C4: within a single successful metadata-recording call, one timestamp is
shared by both generated filenames: the dump filename is `{s}_{t}.dmp` and
the metadata filename `impdp_details_{s}_{t}.json`; in particular for schema
"HR" and timestamp 20240115_143022 they are `HR_20240115_143022.dmp` and
`impdp_details_HR_20240115_143022.json`. -/
theorem claim_C4 (s t u tsp dp : String) :
    (create_impdp_details_file s (.queried (some (u, tsp)) (some dp)) t).result
      = some (config_filename s t, dump_filename s t)
    ∧ dump_filename s t = s ++ "_" ++ t ++ ".dmp"
    ∧ config_filename s t = "impdp_details_" ++ s ++ "_" ++ t ++ ".json"
    ∧ dump_filename "HR" "20240115_143022" = "HR_20240115_143022.dmp"
    ∧ config_filename "HR" "20240115_143022" = "impdp_details_HR_20240115_143022.json" :=
  ⟨rfl, rfl, rfl, rfl, rfl⟩

/-- C6: if the DATA_PUMP_DIR lookup returns no rows, metadata recording
prints "Error: DATA_PUMP_DIR not found.", returns an absent pair, and
creates no metadata file. -/
theorem claim_C6 (s t u tsp : String) :
    (create_impdp_details_file s (.queried (some (u, tsp)) none) t).result = none
    ∧ (create_impdp_details_file s (.queried (some (u, tsp)) none) t).fileWritten = none
    ∧ "Error: DATA_PUMP_DIR not found."
        ∈ (create_impdp_details_file s (.queried (some (u, tsp)) none) t).console :=
  ⟨rfl, rfl, by simp [create_impdp_details_file]⟩

/-- C9: on success the sidecar file holds a flat mapping with exactly the
four keys schema_name, default_tablespace, data_pump_dir, dump_file, whose
values come from the schema lookup, the directory lookup, and the generated
dump filename. -/
theorem claim_C9 (s t u tsp dp : String) :
    (create_impdp_details_file s (.queried (some (u, tsp)) (some dp)) t).fileWritten
      = some (config_filename s t,
          [("schema_name", u), ("default_tablespace", tsp),
           ("data_pump_dir", dp), ("dump_file", dump_filename s t)])
    ∧ ((create_impdp_details_file s (.queried (some (u, tsp)) (some dp)) t).fileWritten.map
          (fun f => f.2.map Prod.fst))
      = some ["schema_name", "default_tablespace", "data_pump_dir", "dump_file"] :=
  ⟨rfl, rfl⟩

/-- C5: if the schema lister yields a database failure or zero rows, the
workflow prints exactly the header, any lister error, and the distinct
"Could not fetch schemas. Exiting." message, and aborts before the selector
(no menu is ever printed), returning a defined abort result. -/
theorem claim_C5 (u p d : String) (inputs : List String) (me : MetaEnv) (t : String)
    (l : LaunchOutcome) (m : String) :
    (run_export_workflow u p d (.dbError m) inputs me t l).console
      = ["--- Oracle Database Export Tool ---",
         "Error connecting to database or fetching schemas: " ++ m,
         "Could not fetch schemas. Exiting."]
    ∧ (run_export_workflow u p d (.dbError m) inputs me t l).result = .abortedNoSchemas
    ∧ (run_export_workflow u p d (.ok []) inputs me t l).console
      = ["--- Oracle Database Export Tool ---", "Could not fetch schemas. Exiting."]
    ∧ (run_export_workflow u p d (.ok []) inputs me t l).result = .abortedNoSchemas :=
  ⟨rfl, rfl, rfl, rfl⟩

/-- C7: the external command is exactly the five-token list: command name,
one user/password@dsn credential token, schemas=, dumpfile=, and logfile=
whose value replaces the dump filename's extension with .log. -/
theorem claim_C7 (u p d s dump : String) :
    expdpCommand u p d s dump
      = ["expdp", u ++ "/" ++ p ++ "@" ++ d, "schemas=" ++ s, "dumpfile=" ++ dump,
         "logfile=" ++ (splitext dump).1 ++ ".log"]
    ∧ log_filename_expdp dump = (splitext dump).1 ++ ".log"
    ∧ (splitext dump).1 ++ (splitext dump).2 = dump
    ∧ log_filename_expdp "HR_20240115_143022.dmp" = "HR_20240115_143022.log" :=
  ⟨rfl, rfl, splitext_fst_append_snd dump, by decide⟩

/-- Each streamed line goes to both sinks: the console lines and the log
lines produced by the streaming loop are the same list. -/
theorem streamLoop_fst_eq_snd (ls : List String) : (streamLoop ls).1 = (streamLoop ls).2 := by
  induction ls with
  | nil => rfl
  | cons x xs ih => by_cases h : x = "" <;> simp [streamLoop, h, ih]

/-- C1: when the expdp process runs and exits 0, run_export returns the
same dump filename paired with the local log path; on a nonzero exit it
reports the numeric code and returns an absent pair. -/
theorem claim_C1 (u p d s dump : String) (lines : List String) (code : Int) :
    (code = 0 →
      (run_export u p d s dump (.ok lines code)).result
        = some (dump, log_filename_local dump))
    ∧ (code ≠ 0 →
      (run_export u p d s dump (.ok lines code)).result = none
      ∧ ("Error: expdp process exited with return code " ++ toString code)
          ∈ (run_export u p d s dump (.ok lines code)).console) := by
  constructor
  · intro h
    simp [run_export, h]
  · intro h
    refine ⟨by simp [run_export, h], ?_⟩
    simp [run_export, h]

theorem claim_C1_witness :
    (run_export "u" "p" "h:1521/orcl" "HR" "HR_1.dmp" (.ok ["a"] 0)).result
        = some ("HR_1.dmp", log_filename_local "HR_1.dmp")
    ∧ ((run_export "u" "p" "h:1521/orcl" "HR" "HR_1.dmp" (.ok ["a"] 3)).result = none
       ∧ ("Error: expdp process exited with return code " ++ toString (3 : Int))
           ∈ (run_export "u" "p" "h:1521/orcl" "HR" "HR_1.dmp" (.ok ["a"] 3)).console) :=
  ⟨(claim_C1 "u" "p" "h:1521/orcl" "HR" "HR_1.dmp" ["a"] 0).1 rfl,
   (claim_C1 "u" "p" "h:1521/orcl" "HR" "HR_1.dmp" ["a"] 3).2 (by decide)⟩

/-- C2: the local log mirror receives exactly the lines the streaming loop
prints to the console, in the same order (the two sink lists are equal),
and those console lines appear contiguously inside run_export's console
output. -/
theorem claim_C2 (u p d s dump : String) (lines : List String) (code : Int) :
    (run_export u p d s dump (.ok lines code)).logWritten = some (streamLoop lines).1
    ∧ (streamLoop lines).1 = (streamLoop lines).2
    ∧ (run_export u p d s dump (.ok lines code)).console
        = (preLaunchConsole u p d s dump ++ ["--- expdp Log ---"])
          ++ (streamLoop lines).1
          ++ (["--- End of Log ---"]
              ++ (if code = 0 then ["Export completed successfully."]
                  else ["Error: expdp process exited with return code " ++ toString code])) := by
  refine ⟨?_, streamLoop_fst_eq_snd lines, ?_⟩
  · show some (streamLoop lines).2 = some (streamLoop lines).1
    rw [streamLoop_fst_eq_snd lines]
  · simp [run_export]

/-- Two strings that differ at character position i inside their literal
head parts are different, whatever is appended after those heads. -/
theorem append_ne_append_of_getElem (p1 s1 p2 s2 : String) (i : Nat)
    (h1 : i < p1.data.length) (h2 : i < p2.data.length)
    (hne : p1.data[i]? ≠ p2.data[i]?) : p1 ++ s1 ≠ p2 ++ s2 := by
  intro h
  apply hne
  have h3 := congrArg (fun q : String => q.data[i]?) h
  simp only [String.data_append, List.getElem?_append, h1, h2, if_pos] at h3
  exact h3

/-- Appending to a string whose character at position i differs from the
same position of `t` cannot yield `t`. -/
theorem append_ne_of_getElem (p1 s1 t : String) (i : Nat)
    (h1 : i < p1.data.length) (hne : p1.data[i]? ≠ t.data[i]?) : p1 ++ s1 ≠ t := by
  intro h
  apply hne
  have h3 := congrArg (fun q : String => q.data[i]?) h
  simp only [String.data_append, List.getElem?_append, h1, if_pos] at h3
  exact h3

/-- C8: run_export keeps three failure conditions apart: a missing expdp
executable has its own dedicated message, any other launch exception gets
the generic message, and a clean nonzero exit is reported with the numeric
code; all three return an absent pair, and the three messages are pairwise
distinct. -/
theorem claim_C8 (u p d s dump m : String) (lines : List String) (code : Int)
    (hc : code ≠ 0) :
    (run_export u p d s dump .notFound).result = none
    ∧ "Error: \x27expdp\x27 command not found."
        ∈ (run_export u p d s dump .notFound).console
    ∧ (run_export u p d s dump (.otherError m)).result = none
    ∧ ("An unexpected error occurred: " ++ m)
        ∈ (run_export u p d s dump (.otherError m)).console
    ∧ (run_export u p d s dump (.ok lines code)).result = none
    ∧ ("Error: expdp process exited with return code " ++ toString code)
        ∈ (run_export u p d s dump (.ok lines code)).console
    ∧ ("An unexpected error occurred: " ++ m) ≠ "Error: \x27expdp\x27 command not found."
    ∧ ("Error: expdp process exited with return code " ++ toString code)
        ≠ "Error: \x27expdp\x27 command not found."
    ∧ ("Error: expdp process exited with return code " ++ toString code)
        ≠ ("An unexpected error occurred: " ++ m) := by
  refine ⟨rfl, ?_, rfl, ?_, by simp [run_export, hc], ?_, ?_, ?_, ?_⟩
  · simp [run_export]
  · simp [run_export]
  · simp [run_export, hc]
  · exact append_ne_of_getElem _ _ _ 0 (by decide) (by decide)
  · exact append_ne_of_getElem _ _ _ 7 (by decide) (by decide)
  · exact append_ne_append_of_getElem _ _ _ _ 0 (by decide) (by decide) (by decide)

theorem claim_C8_witness :
    (run_export "u" "p" "h:1521/orcl" "HR" "HR_1.dmp" (.ok ["x"] 3)).result = none :=
  (claim_C8 "u" "p" "h:1521/orcl" "HR" "HR_1.dmp" "boom" ["x"] 3 (by decide)).2.2.2.2.1

/-- C3: the selector accepts exactly the inputs parsing as integers in
[1, count], returning the element at index choice-1; every other input
(non-numeric, zero, negative, beyond the count) prints the matching error
message and re-prompts on the remaining inputs; if no input is ever valid
the loop never returns a schema. -/
theorem claim_C3 (schemas : List String) (input : String) (rest inputs : List String) :
    (∀ c : Int, pyInt input = some c → 1 ≤ c → c ≤ (schemas.length : Int) →
       (select_schema schemas (input :: rest)).2 = schemas.get? (c - 1).toNat
       ∧ (schemas.get? (c - 1).toNat).isSome = true)
    ∧ (pyInt input = none →
       (select_schema schemas (input :: rest)).2 = (select_schema schemas rest).2
       ∧ (select_loop schemas (input :: rest)).1
           = "Invalid input. Please enter a number." :: (select_loop schemas rest).1)
    ∧ (∀ c : Int, pyInt input = some c → ¬(1 ≤ c ∧ c ≤ (schemas.length : Int)) →
       (select_schema schemas (input :: rest)).2 = (select_schema schemas rest).2
       ∧ (select_loop schemas (input :: rest)).1
           = "Invalid number. Please try again." :: (select_loop schemas rest).1)
    ∧ ((∀ i ∈ inputs, ∀ c : Int, pyInt i = some c → ¬(1 ≤ c ∧ c ≤ (schemas.length : Int))) →
       (select_schema schemas inputs).2 = none) := by
  refine ⟨?_, ?_, ?_, ?_⟩
  · intro c hc h1 h2
    constructor
    · show (select_loop schemas (input :: rest)).2 = _
      simp [select_loop, hc, h1, h2]
    · have hlt : (c - 1).toNat < schemas.length := by omega
      rw [List.get?_eq_get hlt]
      rfl
  · intro h
    refine ⟨?_, ?_⟩
    · show (select_loop schemas (input :: rest)).2 = (select_loop schemas rest).2
      simp [select_loop, h]
    · simp [select_loop, h]
  · intro c hc hnr
    refine ⟨?_, ?_⟩
    · show (select_loop schemas (input :: rest)).2 = (select_loop schemas rest).2
      simp [select_loop, hc, hnr]
    · simp [select_loop, hc, hnr]
  · induction inputs with
    | nil => intro _; rfl
    | cons i is ih =>
      intro h
      have hhead := h i (List.mem_cons_self i is)
      have htail : ∀ j ∈ is, ∀ c : Int, pyInt j = some c →
          ¬(1 ≤ c ∧ c ≤ (schemas.length : Int)) :=
        fun j hj => h j (List.mem_cons_of_mem i hj)
      have htl := ih htail
      show (select_loop schemas (i :: is)).2 = none
      cases hpi : pyInt i with
      | none => simpa [select_loop, hpi, select_schema] using htl
      | some c =>
        have hr := hhead c hpi
        simp only [select_schema] at htl
        simpa [select_loop, hpi, hr] using htl

theorem claim_C3_witness :
    ((select_schema ["A", "B"] ("2" :: [])).2 = ["A", "B"].get? ((2 : Int) - 1).toNat
      ∧ ((["A", "B"] : List String).get? ((2 : Int) - 1).toNat).isSome = true)
    ∧ ((select_schema ["A", "B"] ("x" :: ["2"])).2 = (select_schema ["A", "B"] ["2"]).2
      ∧ (select_loop ["A", "B"] ("x" :: ["2"])).1
          = "Invalid input. Please enter a number." :: (select_loop ["A", "B"] ["2"]).1)
    ∧ ((select_schema ["A", "B"] ("0" :: ["2"])).2 = (select_schema ["A", "B"] ["2"]).2
      ∧ (select_loop ["A", "B"] ("0" :: ["2"])).1
          = "Invalid number. Please try again." :: (select_loop ["A", "B"] ["2"]).1)
    ∧ (select_schema ["A", "B"] ["0"]).2 = none :=
  ⟨(claim_C3 ["A", "B"] "2" [] []).1 2 (by decide) (by decide) (by decide),
   (claim_C3 ["A", "B"] "x" ["2"] []).2.1 (by decide),
   (claim_C3 ["A", "B"] "0" ["2"] []).2.2.1 0 (by decide) (by decide),
   (claim_C3 ["A", "B"] "0" [] ["0"]).2.2.2 (fun i hi c hc => by
      rw [List.mem_singleton] at hi
      subst hi
      have h0 : pyInt "0" = some 0 := by decide
      rw [h0] at hc
      have hce : (0 : Int) = c := Option.some.inj hc
      subst hce
      decide)⟩

/-- The printed command line determines the password: two command lines
that agree everywhere else and are equal as strings carry equal passwords. -/
theorem generatedCommandLine_inj (u p p2 d s dump : String)
    (h : generatedCommandLine u p d s dump = generatedCommandLine u p2 d s dump) : p = p2 := by
  have h2 := congrArg String.data h
  simp only [generatedCommandLine, pyJoin, expdpCommand, String.data_append,
    List.append_assoc] at h2
  have h3 := List.append_cancel_left h2
  have h4 := List.append_cancel_left h3
  have h5 := List.append_cancel_left h4
  have h6 := List.append_cancel_left h5
  have h7 := List.append_cancel_right h6
  exact congrArg String.mk h7

/-- C10: the console output printed before the external process is launched
contains the full command line with the password embedded in plaintext, and
two runs identical except for the password produce different console
output. -/
theorem claim_C10 (u p d s dump : String) (launch : LaunchOutcome) :
    (∃ a b, (generatedCommandLine u p d s dump).data = a ++ p.data ++ b)
    ∧ generatedCommandLine u p d s dump ∈ preLaunchConsole u p d s dump
    ∧ (∃ tail, (run_export u p d s dump launch).console
        = preLaunchConsole u p d s dump ++ tail)
    ∧ ∀ p2 : String, p ≠ p2 →
        (run_export u p d s dump launch).console
          ≠ (run_export u p2 d s dump launch).console := by
  refine ⟨?_, ?_, ?_, ?_⟩
  · refine ⟨"expdp".data ++ " ".data ++ u.data ++ "/".data,
      "@".data ++ d.data ++ " ".data ++ "schemas=".data ++ s.data ++ " ".data
        ++ "dumpfile=".data ++ dump.data ++ " ".data ++ "logfile=".data
        ++ (log_filename_expdp dump).data, ?_⟩
    simp [generatedCommandLine, pyJoin, expdpCommand, String.data_append, List.append_assoc]
  · simp [preLaunchConsole]
  · cases launch with
    | notFound => exact ⟨_, rfl⟩
    | otherError m => exact ⟨_, rfl⟩
    | ok lines code =>
      exact ⟨["--- expdp Log ---"] ++ (streamLoop lines).1
        ++ (["--- End of Log ---"]
            ++ (if code = 0 then ["Export completed successfully."]
                else ["Error: expdp process exited with return code " ++ toString code])),
        by simp [run_export, List.append_assoc]⟩
  · intro p2 hne h
    apply hne
    apply generatedCommandLine_inj u p p2 d s dump
    have h2 := congrArg (fun l : List String => l[2]?) h
    cases launch <;> simp [run_export, preLaunchConsole] at h2 <;> exact h2

theorem claim_C10_witness :
    (run_export "scott" "tiger" "h:1521/orcl" "HR" "HR_1.dmp" .notFound).console
      ≠ (run_export "scott" "lion" "h:1521/orcl" "HR" "HR_1.dmp" .notFound).console :=
  (claim_C10 "scott" "tiger" "h:1521/orcl" "HR" "HR_1.dmp" .notFound).2.2.2 "lion" (by decide)
